import Mathlib

/-!
Verification of the Telegram_bot_ocean moderation engine.

Shallow embedding of the repository's Python sources:
  * `content_filter.py` — tiered text classification (trusted / normal / strict);
  * `config.py` — the static word lists;
  * `image_analyzer.py` — template-based competitor-logo detection;
  * `moderation_bot.py` — trust scoring, the 3-strike escalation handler, and
    the message-retention scheduler (track / preview / sweep / auto-deletion).

Python strings are embedded as `String` / `List Char` with ASCII-faithful
case folding and ASCII character classes for the regex character classes
`\s`, `\d`, `\w`. The regular expressions used by the filter are linear
patterns (literals, alternations of mutually non-prefix literals, greedy
`\s*`/`\s+`/`\d+` runs and optional single characters followed by tokens of
a disjoint character class), so they are compiled here into deterministic
matchers whose behaviour coincides with Python `re.search` on these
patterns. Real time is passed explicitly as a rational number of seconds;
the transport (Telegram API) is abstracted as explicit success/failure
inputs, and OpenCV's normalized cross-correlation maximum is abstracted as
an oracle mapping (template, scale) to a rational correlation value.
-/

namespace OceanBot

/-! ## Character classes (ASCII fragments of Python `\s`, `\d`, `\w`) -/

/-- ASCII whitespace, the ASCII fragment of Python regex `\s`. -/
def isWsChar (c : Char) : Bool :=
  c = ' ' || c = '\t' || c = '\n' || c = '\r' || c = '\x0b' || c = '\x0c'

/-- ASCII digit, the fragment of Python regex `\d`. -/
def isDigitChar (c : Char) : Bool :=
  '0' ≤ c && c ≤ '9'

/-- ASCII word character, the fragment of Python regex `\w` used by `\b`. -/
def isWordChar (c : Char) : Bool :=
  ('a' ≤ c && c ≤ 'z') || ('A' ≤ c && c ≤ 'Z') || isDigitChar c || c = '_'

/-- Lower-case an ASCII string, the embedding of Python `str.lower`. -/
def lowerStr (s : List Char) : List Char :=
  s.map Char.toLower

/-! ## Deterministic matchers for the filter's regular expressions

A matcher takes the input suffix and returns the rest of the input after a
successful match at its head, or `none`. -/

abbrev Matcher := List Char → Option (List Char)

/-- Match a literal character sequence at the head of the input. -/
def mStr (pat : List Char) (s : List Char) : Option (List Char) :=
  match pat, s with
  | [], rest => some rest
  | _ :: _, [] => none
  | p :: ps, c :: cs => if p = c then mStr ps cs else none

/-- Sequencing of matchers. -/
def mSeq (a b : Matcher) : Matcher :=
  fun s => (a s).bind b

/-- Ordered alternation of matchers (first alternative wins, as in `re`). -/
def mAlt (a b : Matcher) : Matcher :=
  fun s => (a s).orElse (fun _ => b s)

/-- Greedy `cls*` for a character class. -/
def mMany0 (pred : Char → Bool) : Matcher :=
  fun s => some (s.dropWhile pred)

/-- Greedy `cls+` for a character class. -/
def mMany1 (pred : Char → Bool) : Matcher :=
  fun s =>
    match s with
    | [] => none
    | c :: cs => if pred c then some (cs.dropWhile pred) else none

/-- Optional single character, `c?`. -/
def mOpt (pred : Char → Bool) : Matcher :=
  fun s =>
    match s with
    | [] => some []
    | c :: cs => if pred c then some cs else some s

/-- Literal string matcher (patterns are written lower-case; inputs are
lowered before matching, embedding `re.IGNORECASE`). -/
def lit (s : String) : Matcher :=
  mStr s.data

/-- `\s+` -/
def ws1 : Matcher := mMany1 isWsChar

/-- `\s*` -/
def ws0 : Matcher := mMany0 isWsChar

/-- `\d+` -/
def digits1 : Matcher := mMany1 isDigitChar

/-- A single optional literal character. -/
def optChar (c : Char) : Matcher :=
  mOpt (fun d => d = c)

/-- `re.search`: does the matcher succeed at some position of the input? -/
def searchM (m : Matcher) (s : List Char) : Bool :=
  (m s).isSome ||
    match s with
    | [] => false
    | _ :: rest => searchM m rest

/-- `re.search` for a pattern that begins with `\b` followed by a word
character: a match position must be at the start of the input or preceded
by a non-word character.  `prev` is the character just before the current
position. -/
def searchWB (m : Matcher) (prev : Option Char) (s : List Char) : Bool :=
  (prev.all (fun c => !isWordChar c) && (m s).isSome) ||
    match s with
    | [] => false
    | c :: rest => searchWB m (some c) rest

/-- Matcher for `lit\b` where `lit` ends in a word character: after the
literal, the input must be exhausted or continue with a non-word
character. -/
def mWordEnd (pat : List Char) : Matcher :=
  fun s =>
    match mStr pat s with
    | none => none
    | some rest =>
      match rest with
      | [] => some []
      | c :: cs => if isWordChar c then none else some (c :: cs)

/-- Embedding of `ContentFilter._compile_patterns` + `findall`-nonempty for
one word list entry: the pattern `\b re.escape(word) \b` matches somewhere
in the text, case-insensitively.  Every word in the configured lists starts
and ends with a word character, so both `\b` anchors behave as coded in
`searchWB` / `mWordEnd`. -/
def wordMatch (word : String) (text : List Char) : Bool :=
  searchWB (mWordEnd (lowerStr word.data)) none (lowerStr text)

/-- Substring containment, the embedding of Python `pat in s`. -/
def listStarts (pat : List Char) (s : List Char) : Bool :=
  match pat, s with
  | [], _ => true
  | _ :: _, [] => false
  | p :: ps, c :: cs => p = c && listStarts ps cs

/-- `pat` occurs as a contiguous substring of `s` (Python `pat in s`). -/
def listHasSub (pat : List Char) (s : List Char) : Bool :=
  listStarts pat s ||
    match s with
    | [] => false
    | _ :: rest => listHasSub pat rest

/-! ## `config.py` word lists -/

/-- `Config.VULGAR_WORDS`.  Note: in the Python source the entries
`"badtameez"` and `"chodu"` are adjacent string literals with no comma, so
they concatenate to the single entry `"badtameezchodu"`; that is preserved
here. -/
def VULGAR_WORDS : List String := [
  "chutiya", "mc", "gandu", "lodu", "pagal", "lund", "chut", "fuck",
  "bsdk", "madrchod", "madrchd", "nudes", "hot pic", "takla", "sexy",
  "handjob", "mutthi", "masturbation", "pussy", "dick", "randi", "rand",
  "gand", "gaand", "gaandu", "Doglapan", "dogla", "bhosdike", "bhosdika",
  "bhosdiki", "bhosdike", "bhosdiki", "chu*iya", "ch*tiya", "chut1ya",
  "m@derch0d", "b$dk", "g@ndu", "g@ndu", "gandu", "gandu", "gandu",
  "f-uck", "f**k", "ph*ck", "f*ck", "fuk", "fuker", "fuking",
  "l0du", "r@ndi", "r@nd", "randi", "randi", "randi", "randi",
  "delete this group", "report this channel", "waste channel", "useless channel",
  "useless group", "fake channel", "fake group", "scam channel",
  "bhenchod", "sisterfucker", "madarchod variations",
  "rakshas", "harami", "kameena", "badtameezchodu", "lavde", "bhosadi",
  "bhosadi ke", "bhosadi ki", "bhosadi ka",
  "bhosadi wale", "bhosadi wale", "bhosadi wale"]

/-- `Config.COMPETITOR_KEYWORDS`. -/
def COMPETITOR_KEYWORDS : List String := [
  "allen", "ellen", "alen", "aleen", "alenn", "allleen", "alien",
  "akash", "aakash", "aksh", "aaksh", "pw", "physics wallaha",
  "physics wallah", "coaching"]

/-- `Config.SCREENSHOT_INDICATORS` — every entry is commented out in the
source, so the list is empty. -/
def SCREENSHOT_INDICATORS : List String := []

/-! ## `content_filter.py` -/

/-- `ContentFilter.check_vulgar_content`, reduced to the boolean that its
callers use: `is_vulgar and vulgar_words`, i.e. some vulgar-word pattern
has a match in the text. -/
def check_vulgar_content (text : String) : Bool :=
  VULGAR_WORDS.any (fun w => wordMatch w text.data)

/-- `ContentFilter.check_competitor_content`, reduced likewise. -/
def check_competitor_content (text : String) : Bool :=
  COMPETITOR_KEYWORDS.any (fun w => wordMatch w text.data)

/-- The 14 educational keywords of `check_screenshot_threat`. -/
def screenshot_edu_keywords : List String := [
  "neet", "question", "doubt", "solve", "answer", "physics", "chemistry",
  "biology", "math", "solution", "help", "explain", "concept", "formula"]

/-- `ContentFilter.check_screenshot_threat`, reduced to the boolean used by
its callers. -/
def check_screenshot_threat (text : String) : Bool :=
  if text = "" then false
  else if screenshot_edu_keywords.any
      (fun k => listHasSub k.data (lowerStr text.data)) then false
  else SCREENSHOT_INDICATORS.any (fun w => wordMatch w text.data)

/-- URL pattern `(?:https?://|www\.)\S+`. -/
def mUrl : Matcher :=
  mSeq (mAlt (mSeq (lit "http") (mSeq (optChar 's') (lit "://"))) (lit "www."))
    (mMany1 (fun c => !isWsChar c))

/-- `re.findall(url_pattern, text)`: non-overlapping left-to-right matches.
`fuel` bounds the recursion by the input length. -/
def findUrlsAux (fuel : ℕ) (s : List Char) : List (List Char) :=
  match fuel, s with
  | 0, _ => []
  | _, [] => []
  | fuel + 1, c :: rest =>
    match mUrl (c :: rest) with
    | some remainder =>
      ((c :: rest).take ((c :: rest).length - remainder.length)) ::
        findUrlsAux fuel remainder
    | none => findUrlsAux fuel rest

/-- All URL matches in a (lowered) text. -/
def findUrls (s : List Char) : List (List Char) :=
  findUrlsAux s.length s

/-- The allow-listed domains of `check_spam_patterns`. -/
def allowed_domains : List String :=
  ["neetprep", "neet", "ncert", "cbse", "nta.ac.in"]

/-- The URL part of `check_spam_patterns`: some matched URL contains none
of the allowed domains. -/
def urlSpamHit (lowered : List Char) : Bool :=
  (findUrls lowered).any
    (fun url => !allowed_domains.any (fun d => listHasSub d.data url))

/-- `\b(?:call|contact|whatsapp)\s*:?\s*\+?\d+` (body after the `\b`). -/
def spamPat1 : Matcher :=
  mSeq (mAlt (lit "call") (mAlt (lit "contact") (lit "whatsapp")))
    (mSeq ws0 (mSeq (optChar ':') (mSeq ws0 (mSeq (optChar '+') digits1))))

/-- `(?:dm|message)\s+me` -/
def spamPat2 : Matcher :=
  mSeq (mAlt (lit "dm") (lit "message")) (mSeq ws1 (lit "me"))

/-- `click\s+(?:here|link)` -/
def spamPat3 : Matcher :=
  mSeq (lit "click") (mSeq ws1 (mAlt (lit "here") (lit "link")))

/-- `join\s+(?:my|our)\s+(?:channel|group)` -/
def spamPat4 : Matcher :=
  mSeq (lit "join")
    (mSeq ws1 (mSeq (mAlt (lit "my") (lit "our"))
      (mSeq ws1 (mAlt (lit "channel") (lit "group")))))

/-- `free\s+(?:download|pdf|course)` -/
def spamPat5 : Matcher :=
  mSeq (lit "free") (mSeq ws1 (mAlt (lit "download") (mAlt (lit "pdf") (lit "course"))))

/-- `limited\s+time\s+offer` -/
def spamPat6 : Matcher :=
  mSeq (lit "limited") (mSeq ws1 (mSeq (lit "time") (mSeq ws1 (lit "offer"))))

/-- `buy\s+now` -/
def spamPat7 : Matcher :=
  mSeq (lit "buy") (mSeq ws1 (lit "now"))

/-- `discount\s+code` -/
def spamPat8 : Matcher :=
  mSeq (lit "discount") (mSeq ws1 (lit "code"))

/-- `ContentFilter.check_spam_patterns`. -/
def check_spam_patterns (text : String) : Bool :=
  if text = "" then false
  else
    let lowered := lowerStr text.data
    urlSpamHit lowered ||
    searchWB spamPat1 none lowered ||
    searchM spamPat2 lowered ||
    searchM spamPat3 lowered ||
    searchM spamPat4 lowered ||
    searchM spamPat5 lowered ||
    searchM spamPat6 lowered ||
    searchM spamPat7 lowered ||
    searchM spamPat8 lowered

/-- `buy\s+(?:now|course|pdf)` -/
def commPat1 : Matcher :=
  mSeq (lit "buy") (mSeq ws1 (mAlt (lit "now") (mAlt (lit "course") (lit "pdf"))))

/-- `₹\s*\d+` -/
def commPat2 : Matcher :=
  mSeq (lit "₹") (mSeq ws0 digits1)

/-- `discount\s+(?:code|offer)` -/
def commPat3 : Matcher :=
  mSeq (lit "discount") (mSeq ws1 (mAlt (lit "code") (lit "offer")))

/-- `call\s+now` -/
def commPat5 : Matcher :=
  mSeq (lit "call") (mSeq ws1 (lit "now"))

/-- `whatsapp\s+\+?\d+` -/
def commPat6 : Matcher :=
  mSeq (lit "whatsapp") (mSeq ws1 (mSeq (optChar '+') digits1))

/-- `dm\s+for\s+(?:course|pdf|notes)` -/
def commPat7 : Matcher :=
  mSeq (lit "dm")
    (mSeq ws1 (mSeq (lit "for")
      (mSeq ws1 (mAlt (lit "course") (mAlt (lit "pdf") (lit "notes"))))))

/-- `ContentFilter.check_commercial_spam` (the fourth pattern is the same
`limited\s+time\s+offer` as `spamPat6`). -/
def check_commercial_spam (text : String) : Bool :=
  let lowered := lowerStr text.data
  searchM commPat1 lowered ||
  searchM commPat2 lowered ||
  searchM commPat3 lowered ||
  searchM spamPat6 lowered ||
  searchM commPat5 lowered ||
  searchM commPat6 lowered ||
  searchM commPat7 lowered

/-- The 28 educational keywords of `analyze_message`. -/
def educational_keywords : List String := [
  "neet", "question", "doubt", "solve", "answer", "physics", "chemistry",
  "biology", "math", "mathematics", "solution", "help", "explain", "concept",
  "formula", "ncert", "jee", "study", "exam", "preparation", "syllabus",
  "chapter", "topic", "theory", "practice", "test", "mock", "sample"]

/-- Educational-context test of `analyze_message`:
`any(keyword in text_lower for keyword in educational_keywords)`. -/
def has_educational_content (text : String) : Bool :=
  educational_keywords.any (fun k => listHasSub k.data (lowerStr text.data))

/-- One rule-category hit of a classification verdict. -/
structure RuleHit where
  vtype : String
  severity : String
deriving DecidableEq, Repr

/-- A classification verdict: `is_safe` plus the list of violations. -/
structure Verdict where
  is_safe : Bool
  violations : List RuleHit
deriving DecidableEq, Repr

/-- The violation list built by the non-educational branch of
`analyze_message` (appends in source order). -/
def normalViolations (text : String) : List RuleHit :=
  (if check_vulgar_content text then [RuleHit.mk "vulgar_content" "high"] else []) ++
  (if check_competitor_content text then [RuleHit.mk "competitor_content" "medium"] else []) ++
  (if check_screenshot_threat text then [RuleHit.mk "screenshot_threat" "high"] else []) ++
  (if check_spam_patterns text then [RuleHit.mk "spam_pattern" "medium"] else [])

/-- `ContentFilter.analyze_message` (the "normal" tier). -/
def analyze_message (text : String) : Verdict :=
  if text = "" then ⟨true, []⟩
  else if has_educational_content text then
    if check_commercial_spam text then ⟨false, [RuleHit.mk "commercial_spam" "high"]⟩
    else ⟨true, []⟩
  else ⟨(normalViolations text).isEmpty, normalViolations text⟩

/-- `ContentFilter.analyze_message_trusted` (the "trusted" tier). -/
def analyze_message_trusted (text : String) : Verdict :=
  if text = "" then ⟨true, []⟩
  else if check_commercial_spam text then ⟨false, [RuleHit.mk "commercial_spam" "high"]⟩
  else ⟨true, []⟩

/-- The promotional self-reference phrases of `analyze_message_strict`,
checked by substring containment. -/
def promotional_phrases : List String := [
  "join my", "follow me", "check my", "visit my",
  "subscribe to", "like and share", "comment below"]

/-- The violation list built by `analyze_message_strict`. -/
def strictViolations (text : String) : List RuleHit :=
  (if check_vulgar_content text then [RuleHit.mk "vulgar_content" "high"] else []) ++
  (if check_competitor_content text then [RuleHit.mk "competitor_content" "medium"] else []) ++
  (if check_screenshot_threat text then [RuleHit.mk "screenshot_threat" "high"] else []) ++
  (if check_spam_patterns text || check_commercial_spam text then
    [RuleHit.mk "spam_pattern" "medium"] else []) ++
  (if promotional_phrases.any (fun p => listHasSub p.data (lowerStr text.data)) then
    [RuleHit.mk "promotional_pattern" "medium"] else [])

/-- `ContentFilter.analyze_message_strict` (the "strict" tier: no
educational-context bypass appears in its source). -/
def analyze_message_strict (text : String) : Verdict :=
  if text = "" then ⟨true, []⟩
  else ⟨(strictViolations text).isEmpty, strictViolations text⟩

/-! ## `moderation_bot.py` — state

Python dictionaries are embedded as association lists over `ℕ` keys with
the dictionary operations below; timestamps (`time.time()` /
`datetime.now()`) are rational seconds passed in explicitly. -/

/-- Association-list embedding of a Python `dict` keyed by integers. -/
abbrev Dict (α : Type) := List (ℕ × α)

/-- `d.get(k)` / `d[k]` lookup. -/
def dget {α : Type} (d : Dict α) (k : ℕ) : Option α :=
  (d.find? (fun p => p.1 = k)).map Prod.snd

/-- `k in d`. -/
def dhas {α : Type} (d : Dict α) (k : ℕ) : Bool :=
  (dget d k).isSome

/-- `d[k] = v` (replace in place, or append a new key). -/
def dset {α : Type} (d : Dict α) (k : ℕ) (v : α) : Dict α :=
  match d with
  | [] => [(k, v)]
  | (k2, v2) :: rest => if k2 = k then (k, v) :: rest else (k2, v2) :: dset rest k v

/-- `del d[k]`. -/
def derase {α : Type} (d : Dict α) (k : ℕ) : Dict α :=
  d.filter (fun p => p.1 ≠ k)

/-- One entry of `self.user_violations[user_id]` as appended by
`handle_violation`. -/
structure ViolationRec where
  content_kind : String
  rule_hits : List RuleHit
  warning_number : ℕ
deriving DecidableEq, Repr

/-- The mutable state of `ModerationBot` that the verified operations
touch. -/
structure BotState where
  user_warnings : Dict ℕ
  user_violations : Dict (List ViolationRec)
  user_trust_scores : Dict ℚ
  user_join_dates : Dict ℚ
  auto_deletion_tasks : Dict (List ℕ)
  message_history : Dict ℤ
deriving DecidableEq, Repr

/-- The empty initial state built in `ModerationBot.__init__`. -/
def initialState : BotState :=
  ⟨[], [], [], [], [], []⟩

/-- Abstract transport actions issued by the bot (calls into the Telegram
API). An action is recorded when the call is attempted. -/
inductive Action where
  | deleteMsg (chat_id msg_id : ℕ)
  | adminNotify (admin_id : ℕ)
  | banUser (chat_id user_id : ℕ)
  | groupNotice (chat_id : ℕ) (kind : String)
deriving DecidableEq, Repr

/-- `ModerationBot.calculate_trust_score`.  `now` stands for the
`time.time()` reads inside one invocation.  Returns the score together
with the updated state (lazy initialization plus the score write-back). -/
def calculate_trust_score (st : BotState) (uid : ℕ) (now : ℚ) : ℚ × BotState :=
  let st1 :=
    if dhas st.user_trust_scores uid then st
    else { st with
            user_trust_scores := dset st.user_trust_scores uid 50,
            user_join_dates := dset st.user_join_dates uid now }
  let join_time := (dget st1.user_join_dates uid).getD now
  let days_in_channel := (now - join_time) / (24 * 60 * 60)
  let time_bonus := min 20 (days_in_channel * 2)
  let violations := ((dget st1.user_violations uid).getD []).length
  let warnings := (dget st1.user_warnings uid).getD 0
  let trust_score :=
    max 0 (min 100 (50 + time_bonus - 15 * (violations : ℚ) - 10 * (warnings : ℚ)))
  (trust_score, { st1 with user_trust_scores := dset st1.user_trust_scores uid trust_score })

/-- `ModerationBot.handle_violation`.  The transport outcomes are explicit
inputs: `deleteOk` — whether `message.delete()` succeeds (its failure
raises and the surrounding `try` aborts the whole handler); `banOk` —
whether `ban_chat_member` succeeds (its failure skips the final report and
the ledger reset); `finalOk` — whether sending the final ban report
succeeds (its failure also skips the ledger reset, which sits after it in
the same `try`).  Admin notification sends have their own inner
`try`/`except` and never abort.  Returns the new state and the attempted
transport actions in order. -/
def handle_violation (admins : List ℕ) (st : BotState) (chat_id msg_id uid : ℕ)
    (analysis : Verdict) (content_type : String)
    (deleteOk banOk finalOk : Bool) : BotState × List Action :=
  if !deleteOk then (st, [Action.deleteMsg chat_id msg_id])
  else
    let st1 :=
      if dhas st.user_warnings uid then st
      else { st with
              user_warnings := dset st.user_warnings uid 0,
              user_violations := dset st.user_violations uid [] }
    let warning_count := (dget st1.user_warnings uid).getD 0 + 1
    let st2 := { st1 with user_warnings := dset st1.user_warnings uid warning_count }
    let vrec : ViolationRec := ⟨content_type, analysis.violations, warning_count⟩
    let st3 := { st2 with
      user_violations :=
        dset st2.user_violations uid (((dget st2.user_violations uid).getD []) ++ [vrec]) }
    let baseActs := Action.deleteMsg chat_id msg_id :: admins.map Action.adminNotify
    if 3 ≤ warning_count then
      if banOk then
        let acts := baseActs ++
          [Action.banUser chat_id uid, Action.groupNotice chat_id "final_ban_report"]
        if finalOk then
          ({ st3 with
              user_warnings := derase st3.user_warnings uid,
              user_violations := derase st3.user_violations uid }, acts)
        else (st3, acts)
      else (st3, baseActs ++ [Action.banUser chat_id uid])
    else (st3, baseActs ++ [Action.groupNotice chat_id "warning"])

/-! ## `moderation_bot.py` — retention scheduler -/

/-- `ModerationBot.track_message`: stores `message_id → date` (integer
seconds); skipped when the id is falsy (zero).  Note the history records
no chat id. -/
def track_message (st : BotState) (msg_id : ℕ) (date : ℤ) : BotState :=
  if msg_id ≠ 0 then
    { st with message_history := dset st.message_history msg_id date }
  else st

/-- `ModerationBot.cleanup_old_message_history`: drop entries older than 48
hours before `now`. -/
def cleanup_old_message_history (st : BotState) (now : ℤ) : BotState :=
  { st with message_history :=
      st.message_history.filter (fun p => !decide (p.2 < now - 48 * 3600)) }

/-- `ModerationBot.get_messages_older_than`. -/
def get_messages_older_than (st : BotState) (cutoff : ℤ) : List ℕ :=
  (st.message_history.filter (fun p => decide (p.2 < cutoff))).map Prod.fst

/-- Ascending insertion used by `sortAsc` (embedding `list.sort()` on the
message ids). -/
def insertAsc (m : ℕ) : List ℕ → List ℕ
  | [] => [m]
  | x :: xs => if m ≤ x then m :: x :: xs else x :: insertAsc m xs

/-- `old_message_ids.sort()` — ascending order. -/
def sortAsc : List ℕ → List ℕ
  | [] => []
  | x :: xs => insertAsc x (sortAsc xs)

/-- Outcome of one `bot.delete_message` call, classified the way the sweep
classifies its exceptions. -/
inductive DelResult where
  | ok
  | notFound
  | cantDelete
  | otherErr
deriving DecidableEq, Repr

/-- The `deleted_count` / `error_count` dictionary a sweep returns. -/
structure SweepResult where
  deleted_count : ℕ
  error_count : ℕ
deriving DecidableEq, Repr

/-- The deletion loop of `get_recent_messages_for_deletion`: per message
id, attempt the delete; on success or a "message to delete not found"
error the id is removed from the history, on "message can't be deleted" or
any other error it stays. -/
def sweepLoop (oracle : ℕ → DelResult) (chat_id : ℕ) :
    List ℕ → Dict ℤ → ℕ → ℕ → List Action → Dict ℤ × ℕ × ℕ × List Action
  | [], hist, d, e, acts => (hist, d, e, acts)
  | m :: rest, hist, d, e, acts =>
    let acts2 := acts ++ [Action.deleteMsg chat_id m]
    match oracle m with
    | DelResult.ok => sweepLoop oracle chat_id rest (derase hist m) (d + 1) e acts2
    | DelResult.notFound => sweepLoop oracle chat_id rest (derase hist m) d (e + 1) acts2
    | DelResult.cantDelete => sweepLoop oracle chat_id rest hist d (e + 1) acts2
    | DelResult.otherErr => sweepLoop oracle chat_id rest hist d (e + 1) acts2

/-- `ModerationBot.get_recent_messages_for_deletion` — the sweep: cleanup,
collect ids older than the cutoff, sort ascending, delete one by one.
`oracle` gives each `delete_message` call's outcome.  Returns the result
counts, the new state, and the attempted delete actions. -/
def get_recent_messages_for_deletion (st : BotState) (chat_id : ℕ)
    (cutoff now : ℤ) (oracle : ℕ → DelResult) :
    SweepResult × BotState × List Action :=
  let st1 := cleanup_old_message_history st now
  let old := get_messages_older_than st1 cutoff
  if old.isEmpty then (⟨0, 0⟩, st1, [])
  else
    let r := sweepLoop oracle chat_id (sortAsc old) st1.message_history 0 0 []
    (⟨r.2.1, r.2.2.1⟩, { st1 with message_history := r.1 }, r.2.2.2)

/-- The numbers reported by `preview_deletion`. -/
structure PreviewResult where
  will_delete_count : ℕ
  will_skip_count : ℕ
  total_tracked : ℕ
deriving DecidableEq, Repr

/-- `ModerationBot.preview_deletion` — read-only report from the tracked
set (it still runs the 48-hour cleanup first, which is its only state
effect). -/
def preview_deletion (st : BotState) (cutoff now : ℤ) : PreviewResult × BotState :=
  let st1 := cleanup_old_message_history st now
  let old := get_messages_older_than st1 cutoff
  (⟨old.length, st1.message_history.length - old.length, st1.message_history.length⟩, st1)

/-- Response of the `/<minutes>` and `/confirm<minutes>` handlers. -/
inductive TimerResp where
  | notAdmin
  | outOfRange
  | needConfirm (minutes : ℕ)
  | swept (r : SweepResult)
deriving DecidableEq, Repr

/-- `ModerationBot.handle_timer_deletion` for a command `/<minutes>`:
range check [5, 1440], then the >180-minute confirmation gate, then the
sweep via `delete_messages_by_time` with `cutoff = now − minutes·60`. -/
def handle_timer_deletion (st : BotState) (chat_id minutes : ℕ) (isAdmin : Bool)
    (now : ℤ) (oracle : ℕ → DelResult) : BotState × TimerResp × List Action :=
  if !isAdmin then (st, TimerResp.notAdmin, [])
  else if ¬(5 ≤ minutes ∧ minutes ≤ 1440) then (st, TimerResp.outOfRange, [])
  else if 180 < minutes then (st, TimerResp.needConfirm minutes, [])
  else
    let r := get_recent_messages_for_deletion st chat_id (now - minutes * 60) now oracle
    (r.2.1, TimerResp.swept r.1, r.2.2)

/-- `ModerationBot.handle_confirm_deletion` for `/confirm<minutes>`: range
check [5, 1440], then the sweep — no further gate. -/
def handle_confirm_deletion (st : BotState) (chat_id minutes : ℕ) (isAdmin : Bool)
    (now : ℤ) (oracle : ℕ → DelResult) : BotState × TimerResp × List Action :=
  if !isAdmin then (st, TimerResp.notAdmin, [])
  else if ¬(5 ≤ minutes ∧ minutes ≤ 1440) then (st, TimerResp.outOfRange, [])
  else
    let r := get_recent_messages_for_deletion st chat_id (now - minutes * 60) now oracle
    (r.2.1, TimerResp.swept r.1, r.2.2)

/-- Membership in a window list (Python `minutes in tasks[chat_id]`). -/
def memB (m : ℕ) : List ℕ → Bool
  | [] => false
  | x :: xs => decide (x = m) || memB m xs

/-- Is an auto-deletion task active for `(chat_id, minutes)`? -/
def pairActive (st : BotState) (chat_id minutes : ℕ) : Bool :=
  memB minutes ((dget st.auto_deletion_tasks chat_id).getD [])

/-- `ModerationBot.start_auto_deletion` — the bookkeeping part: record the
new task under its `(chat_id, minutes)` key (the spawned coroutine itself
is abstracted to this registration). -/
def start_auto_deletion (st : BotState) (chat_id minutes : ℕ) : BotState :=
  let cur := (dget st.auto_deletion_tasks chat_id).getD []
  { st with auto_deletion_tasks := dset st.auto_deletion_tasks chat_id (cur ++ [minutes]) }

/-- Response of the `/auto<minutes>` handler. -/
inductive AutoResp where
  | notAdmin
  | outOfRange
  | duplicate
  | started
deriving DecidableEq, Repr

/-- `ModerationBot.handle_auto_deletion` for `/auto<minutes>`: range check
[10, 1440], duplicate-pair rejection, then task start. -/
def handle_auto_deletion (st : BotState) (chat_id minutes : ℕ) (isAdmin : Bool) :
    BotState × AutoResp :=
  if !isAdmin then (st, AutoResp.notAdmin)
  else if ¬(10 ≤ minutes ∧ minutes ≤ 1440) then (st, AutoResp.outOfRange)
  else if pairActive st chat_id minutes then (st, AutoResp.duplicate)
  else (start_auto_deletion st chat_id minutes, AutoResp.started)

/-- The single-window branch of `ModerationBot.stop_auto_deletion_command`
(`/stop_auto <minutes>`): cancel and remove one task, dropping the chat
key when its last task goes.  The boolean reports whether a task was
stopped. -/
def stop_auto_deletion_one (st : BotState) (chat_id minutes : ℕ) : BotState × Bool :=
  let cur := (dget st.auto_deletion_tasks chat_id).getD []
  if !dhas st.auto_deletion_tasks chat_id || !memB minutes cur then (st, false)
  else
    let remaining := cur.filter (fun x => decide (x ≠ minutes))
    if remaining.isEmpty then
      ({ st with auto_deletion_tasks := derase st.auto_deletion_tasks chat_id }, true)
    else
      ({ st with auto_deletion_tasks := dset st.auto_deletion_tasks chat_id remaining }, true)

/-! ## `image_analyzer.py`

Pixel data is abstracted: an image or template is its grayscale dimension
pair, and the maximum normalized cross-correlation that
`cv2.matchTemplate` + `cv2.minMaxLoc` would report for template `i`
resized by scale `s` is an oracle `ℕ → ℚ → ℚ`.  The control flow —
educational-caption detection, strict vs lenient scale lists and
thresholds, and the size-skip rules — is embedded from the source. -/

/-- Grayscale dimensions of an image or logo template. -/
structure ImgDims where
  height : ℕ
  width : ℕ
deriving DecidableEq, Repr

/-- The ten scales of `_match_template`. -/
def lenientScales : List ℚ :=
  [3/10, 4/10, 5/10, 6/10, 7/10, 8/10, 9/10, 1, 11/10, 12/10]

/-- The five scales of `_match_template_strict`. -/
def strictScales : List ℚ :=
  [8/10, 9/10, 1, 11/10, 12/10]

/-- Python `int(x)` for the nonnegative scaled dimensions. -/
def natFloor (q : ℚ) : ℕ :=
  q.floor.toNat

/-- Does the template resized by `scale` fit inside the image
(`new_h > image_h or new_w > image_w` skips the scale)? -/
def scaledFits (img tpl : ImgDims) (scale : ℚ) : Bool :=
  natFloor (tpl.height * scale) ≤ img.height &&
  natFloor (tpl.width * scale) ≤ img.width

/-- `_match_template` / `_match_template_strict` for one template: the
unscaled template must fit, and some scale that fits must reach the
threshold. -/
def matchTemplateAt (oracle : ℕ → ℚ → ℚ) (idx : ℕ) (img tpl : ImgDims)
    (scales : List ℚ) (threshold : ℚ) : Bool :=
  if img.height < tpl.height || img.width < tpl.width then false
  else scales.any (fun s => scaledFits img tpl s && decide (threshold ≤ oracle idx s))

/-- `_detect_competitor_logos`: lenient matching, threshold 0.8, ten
scales 0.3–1.2. -/
def detect_competitor_logos (oracle : ℕ → ℚ → ℚ) (img : ImgDims)
    (templates : List ImgDims) : Bool :=
  templates.enum.any (fun p => matchTemplateAt oracle p.1 img p.2 lenientScales (8/10))

/-- `_detect_competitor_logos_strict`: strict matching, threshold 0.9,
five scales 0.8–1.2. -/
def detect_competitor_logos_strict (oracle : ℕ → ℚ → ℚ) (img : ImgDims)
    (templates : List ImgDims) : Bool :=
  templates.enum.any (fun p => matchTemplateAt oracle p.1 img p.2 strictScales (9/10))

/-- The 18 educational keywords of `ImageAnalyzer`. -/
def image_educational_keywords : List String := [
  "neet", "jee", "physics", "chemistry", "biology", "mathematics",
  "question", "answer", "solution", "ncert", "cbse", "study",
  "exam", "preparation", "practice", "test", "mock", "sample"]

/-- `ImageAnalyzer._is_educational_content`. -/
def is_educational_content (caption : String) : Bool :=
  if caption = "" then false
  else image_educational_keywords.any
    (fun k => listHasSub k.data (lowerStr caption.data))

/-- Python `not caption.strip()`: the caption is empty or consists of
whitespace only. -/
def strip_empty (caption : String) : Bool :=
  caption.data.all isWsChar

/-- The result dictionary of `ImageAnalyzer.analyze_image`; `decode_error`
models the exception branch (undecodable image ⇒ unsafe with an error). -/
structure ImageVerdict where
  is_safe : Bool
  has_competitor_logo : Bool
  is_educational : Bool
  decode_error : Bool
deriving DecidableEq, Repr

/-- `ImageAnalyzer.analyze_image`: captionless (or whitespace-only
caption) images are forced educational; educational images go through the
strict detector only, others through the lenient one. -/
def analyze_image (oracle : ℕ → ℚ → ℚ) (templates : List ImgDims)
    (decodeOk : Bool) (img : ImgDims) (caption : String) : ImageVerdict :=
  if !decodeOk then ⟨false, false, false, true⟩
  else
    let edu0 := is_educational_content caption
    let edu := if strip_empty caption then true else edu0
    let logo :=
      if edu then detect_competitor_logos_strict oracle img templates
      else detect_competitor_logos oracle img templates
    ⟨!logo, logo, edu, false⟩

/-! ## Concrete states for the counterexamples and witnesses -/

/-- A state in which user 7 has two recorded violations and two warnings,
joined at time 0, trust record present. -/
def exStateC2 : BotState :=
  { initialState with
      user_warnings := [(7, 2)],
      user_violations :=
        [(7, [⟨"text", [RuleHit.mk "vulgar_content" "high"], 1⟩,
              ⟨"text", [RuleHit.mk "spam_pattern" "medium"], 2⟩])],
      user_trust_scores := [(7, 20)],
      user_join_dates := [(7, 0)] }

/-- A state tracking a single old message with id 1 seen at time 0. -/
def exStateC5 : BotState :=
  { initialState with message_history := [(1, 0)] }

/-- A state tracking message 5 (recent enough to survive cleanup) and
message 8 (older than the 48-hour ceiling at the query time used below). -/
def exStateC6 : BotState :=
  { initialState with message_history := [(5, 0), (8, -200000)] }

/-- A state with one active auto-deletion task: chat 4, window 60. -/
def exStateC7 : BotState :=
  { initialState with auto_deletion_tasks := [(4, [60])] }

/-- The number of sweep delete failures whose cause is that the message no
longer exists ("message to delete not found"), for a sweep of the given
snapshot — the quantity named by the preview/sweep reconciliation claim. -/
def notFoundFailures (st : BotState) (cutoff now : ℤ) (oracle : ℕ → DelResult) : ℕ :=
  ((get_messages_older_than (cleanup_old_message_history st now) cutoff).filter
    (fun m => decide (oracle m = DelResult.notFound))).length

/-- Is an action a ban? -/
def Action.isBan : Action → Bool
  | Action.banUser _ _ => true
  | _ => false

/-- Does a `delete_message` outcome remove the id from the tracked history
(success, or "message to delete not found")? -/
def removedOutcome : DelResult → Bool
  | DelResult.ok => true
  | DelResult.notFound => true
  | DelResult.cantDelete => false
  | DelResult.otherErr => false

/-! # Theorems -/

/-! ## Dictionary lemmas -/

theorem dget_nil {α : Type} (k : ℕ) : dget ([] : Dict α) k = none := rfl

theorem dget_cons {α : Type} (k2 : ℕ) (v2 : α) (rest : Dict α) (k : ℕ) :
    dget ((k2, v2) :: rest) k = if k2 = k then some v2 else dget rest k := by
  by_cases h : k2 = k <;> simp [dget, List.find?, h]

theorem dget_dset_self {α : Type} (d : Dict α) (k : ℕ) (v : α) :
    dget (dset d k v) k = some v := by
  induction d with
  | nil => simp [dset, dget_cons]
  | cons p rest ih =>
    obtain ⟨k2, v2⟩ := p
    by_cases h : k2 = k
    · simp [dset, h, dget_cons]
    · simp [dset, h, dget_cons, ih]

theorem dget_dset_ne {α : Type} (d : Dict α) (k j : ℕ) (v : α) (h : k ≠ j) :
    dget (dset d k v) j = dget d j := by
  induction d with
  | nil => simp [dset, dget_cons, h]
  | cons p rest ih =>
    obtain ⟨k2, v2⟩ := p
    by_cases h2 : k2 = k
    · subst h2; simp [dset, dget_cons, h]
    · simp [dset, h2, dget_cons, ih]

theorem derase_cons {α : Type} (k2 : ℕ) (v2 : α) (rest : Dict α) (k : ℕ) :
    derase ((k2, v2) :: rest) k =
      if k2 = k then derase rest k else (k2, v2) :: derase rest k := by
  by_cases h : k2 = k <;> simp [derase, List.filter_cons, h]

theorem dget_derase {α : Type} (d : Dict α) (k j : ℕ) :
    dget (derase d k) j = if k = j then none else dget d j := by
  induction d with
  | nil => simp [derase, dget_nil]
  | cons p rest ih =>
    obtain ⟨k2, v2⟩ := p
    rw [derase_cons]
    by_cases h2 : k2 = k
    · rw [if_pos h2, ih, dget_cons]
      by_cases hkj : k = j
      · simp [hkj]
      · have : ¬k2 = j := by rw [h2]; exact hkj
        simp [hkj, this]
    · rw [if_neg h2, dget_cons, ih, dget_cons]
      by_cases hj : k2 = j
      · have hkj : ¬k = j := by rw [← hj]; exact fun hh => h2 hh.symm
        simp [hj, hkj]
      · simp [hj]

theorem dhas_of_dget {α : Type} (d : Dict α) (k : ℕ) (v : α)
    (h : dget d k = some v) : dhas d k = true := by
  simp [dhas, h]

/-! ## Classifier characterizations -/

theorem normalViolations_isEmpty (text : String) :
    (normalViolations text).isEmpty =
      (!check_vulgar_content text && !check_competitor_content text &&
       !check_screenshot_threat text && !check_spam_patterns text) := by
  unfold normalViolations
  cases hv : check_vulgar_content text <;>
  cases hc : check_competitor_content text <;>
  cases ht : check_screenshot_threat text <;>
  cases hs : check_spam_patterns text <;> simp

theorem strictViolations_isEmpty (text : String) :
    (strictViolations text).isEmpty =
      (!check_vulgar_content text && !check_competitor_content text &&
       !check_screenshot_threat text &&
       !(check_spam_patterns text || check_commercial_spam text) &&
       !promotional_phrases.any (fun p => listHasSub p.data (lowerStr text.data))) := by
  unfold strictViolations
  cases hv : check_vulgar_content text <;>
  cases hc : check_competitor_content text <;>
  cases ht : check_screenshot_threat text <;>
  cases hs : check_spam_patterns text <;>
  cases hcs : check_commercial_spam text <;>
  cases hp : promotional_phrases.any (fun p => listHasSub p.data (lowerStr text.data)) <;> simp

/-! ## C1 — educational keyword + no commercial spam ⇒ safe at every tier

The claim fails at the strict tier (`analyze_message_strict` applies no
educational-context bypass); it holds at the trusted and normal tiers. -/

/-- C1 (counterexample): the text "physics chutiya" contains the
educational keyword "physics" and matches no commercial-spam pattern, yet
the strict tier classifies it unsafe (vulgar word hit) — refuting the
claim that such texts are safe at every tier. -/
theorem C1_counterexample :
    has_educational_content "physics chutiya" = true ∧
    check_commercial_spam "physics chutiya" = false ∧
    (analyze_message_strict "physics chutiya").is_safe = false := by
  refine ⟨by decide, by decide, by decide⟩

/-- C1 (amended): for every text containing an educational keyword and no
commercial-spam pattern, classification returns a safe verdict at the
trusted and normal tiers, whatever vulgar/competitor/spam content is
present; the strict tier is exempt from this guarantee. -/
theorem C1_educational_override (text : String)
    (hedu : has_educational_content text = true)
    (hcs : check_commercial_spam text = false) :
    (analyze_message_trusted text).is_safe = true ∧
    (analyze_message text).is_safe = true := by
  constructor
  · by_cases h0 : text = "" <;> simp [analyze_message_trusted, h0, hcs]
  · by_cases h0 : text = "" <;> simp [analyze_message, h0, hedu, hcs]

/-- C1 (witness): concrete educational text with vulgar content, safe at
the trusted and normal tiers. -/
theorem C1_educational_override_witness :
    has_educational_content "doubt in physics fuck" = true ∧
    check_commercial_spam "doubt in physics fuck" = false ∧
    (analyze_message_trusted "doubt in physics fuck").is_safe = true ∧
    (analyze_message "doubt in physics fuck").is_safe = true := by
  refine ⟨by decide, by decide, ?_, ?_⟩
  · exact (C1_educational_override "doubt in physics fuck" (by decide) (by decide)).1
  · exact (C1_educational_override "doubt in physics fuck" (by decide) (by decide)).2

/-! ## C10 — the strict tier's unsafe set contains the normal tier's -/

/-- C10: for every text, if the normal tier (`analyze_message`) returns an
unsafe verdict then the strict tier (`analyze_message_strict`) also
returns an unsafe verdict. -/
theorem C10_strict_refines_normal (text : String)
    (h : (analyze_message text).is_safe = false) :
    (analyze_message_strict text).is_safe = false := by
  by_cases h0 : text = ""
  · simp [analyze_message, h0] at h
  · have hstrict : (analyze_message_strict text).is_safe = (strictViolations text).isEmpty := by
      simp [analyze_message_strict, h0]
    rw [hstrict, strictViolations_isEmpty]
    by_cases he : has_educational_content text = true
    · by_cases hc : check_commercial_spam text = true
      · simp [hc]
      · simp [analyze_message, h0, he, hc] at h
    · have hnormal : (analyze_message text).is_safe = (normalViolations text).isEmpty := by
        simp [analyze_message, h0, he]
      rw [hnormal, normalViolations_isEmpty] at h
      cases hv : check_vulgar_content text <;>
      cases hcc : check_competitor_content text <;>
      cases ht : check_screenshot_threat text <;>
      cases hs : check_spam_patterns text <;> simp_all

/-- C10 (witness): "allen" is unsafe at the normal tier (competitor
keyword), hence unsafe at the strict tier. -/
theorem C10_strict_refines_normal_witness :
    (analyze_message "allen").is_safe = false ∧
    (analyze_message_strict "allen").is_safe = false :=
  ⟨by decide, C10_strict_refines_normal "allen" (by decide)⟩

/-! ## C4 — trust score: monotonicity, range, first-call initialization -/

/-- C4: (1) holding the recorded join date fixed (and the user already
initialized, so no lazy re-initialization interferes), the trust score
computed by `calculate_trust_score` is monotonically non-increasing in the
recorded violation count and warning count; (2) the score always lies in
[0, 100]; (3) the first call for an unseen user (no trust record, no
violations, no warnings) initializes the record with `join_time = now` and
returns 50. -/
theorem C4_trust_score_properties :
    (∀ st1 st2 : BotState, ∀ uid : ℕ, ∀ now : ℚ,
      dhas st1.user_trust_scores uid = true →
      dhas st2.user_trust_scores uid = true →
      dget st1.user_join_dates uid = dget st2.user_join_dates uid →
      ((dget st1.user_violations uid).getD []).length ≤
        ((dget st2.user_violations uid).getD []).length →
      (dget st1.user_warnings uid).getD 0 ≤ (dget st2.user_warnings uid).getD 0 →
      (calculate_trust_score st2 uid now).1 ≤ (calculate_trust_score st1 uid now).1) ∧
    (∀ st : BotState, ∀ uid : ℕ, ∀ now : ℚ,
      0 ≤ (calculate_trust_score st uid now).1 ∧
      (calculate_trust_score st uid now).1 ≤ 100) ∧
    (∀ st : BotState, ∀ uid : ℕ, ∀ now : ℚ,
      dhas st.user_trust_scores uid = false →
      dget st.user_violations uid = none →
      dget st.user_warnings uid = none →
      (calculate_trust_score st uid now).1 = 50 ∧
      dhas (calculate_trust_score st uid now).2.user_trust_scores uid = true ∧
      dget (calculate_trust_score st uid now).2.user_join_dates uid = some now) := by
  refine ⟨?_, ?_, ?_⟩
  · intro st1 st2 uid now h1 h2 hj hv hw
    unfold calculate_trust_score
    rw [if_pos h1, if_pos h2]
    dsimp only
    rw [hj]
    have hvq : (((dget st1.user_violations uid).getD []).length : ℚ) ≤
        (((dget st2.user_violations uid).getD []).length : ℚ) := by exact_mod_cast hv
    have hwq : (((dget st1.user_warnings uid).getD 0 : ℕ) : ℚ) ≤
        (((dget st2.user_warnings uid).getD 0 : ℕ) : ℚ) := by exact_mod_cast hw
    apply max_le_max le_rfl
    apply min_le_min le_rfl
    linarith
  · intro st uid now
    unfold calculate_trust_score
    dsimp only
    constructor
    · exact le_max_left 0 _
    · exact max_le (by norm_num) (min_le_left 100 _)
  · intro st uid now h0 hv hw
    unfold calculate_trust_score
    rw [if_neg (by simp [h0])]
    dsimp only
    have hjoin : dget (dset st.user_join_dates uid now) uid = some now :=
      dget_dset_self _ _ _
    refine ⟨?_, ?_, ?_⟩
    · rw [hjoin, hv, hw]
      simp only [Option.getD_some, Option.getD_none, List.length_nil]
      norm_num
    · rw [dget_dset_self]  -- score write-back over the initialization write
      simp [dhas, dget_dset_self]
    · exact hjoin

/-- C4 (witness): the first query for unseen user 3 at time 500 returns 50
and initializes the record. -/
theorem C4_trust_score_properties_witness :
    (calculate_trust_score initialState 3 500).1 = 50 ∧
    dhas (calculate_trust_score initialState 3 500).2.user_trust_scores 3 = true ∧
    dget (calculate_trust_score initialState 3 500).2.user_join_dates 3 = some 500 :=
  C4_trust_score_properties.2.2 initialState 3 500 (by rfl) (by rfl) (by rfl)

/-! ## C2 — third violation: one ban, ledger cleared, subsequent score

The "exactly one ban, warnings and violations cleared" part holds; the
"subsequent query returns a fresh record with score 50" part fails: the
ban clears `user_warnings` and `user_violations` but leaves
`user_trust_scores` and `user_join_dates`, so a later query applies the
retained join date's time bonus and generally returns more than 50. -/

theorem countP_isBan_adminNotify (admins : List ℕ) :
    (admins.map Action.adminNotify).countP (fun a => Action.isBan a) = 0 := by
  induction admins with
  | nil => rfl
  | cons a l ih => simp [List.countP_cons, ih, Action.isBan]

/-- C2 (counterexample): user 7 joined at time 0 with 2 warnings and 2
violations; the 3rd violation bans and clears the ledger, but a trust
query 5 days later returns 60 (= 50 + retained time bonus), not 50. -/
theorem C2_counterexample :
    dget exStateC2.user_warnings 7 = some 2 ∧
    (calculate_trust_score
        (handle_violation [] exStateC2 1 99 7 ⟨false, []⟩ "text" true true true).1
        7 432000).1 ≠ 50 := by
  constructor
  · rfl
  · norm_num [calculate_trust_score, handle_violation, exStateC2, initialState,
      dget, dset, dhas, derase]

/-- C2 (amended): when a user with warning count 2 incurs a 3rd violation
and the transport calls succeed, exactly one ban action is emitted and the
user's warning count and violation history are cleared; a subsequent
trust-score query returns `clamp(50 + time bonus from the retained join
date)` — which is 50 only when the time bonus is zero, since the join date
and trust record are not reset. -/
theorem C2_third_violation (admins : List ℕ) (st : BotState)
    (chat_id msg_id uid : ℕ) (analysis : Verdict) (ctype : String) (now j : ℚ)
    (hw : dget st.user_warnings uid = some 2)
    (hts : dhas st.user_trust_scores uid = true)
    (hj : dget st.user_join_dates uid = some j) :
    ((handle_violation admins st chat_id msg_id uid analysis ctype true true true).2.countP
        (fun a => Action.isBan a) = 1) ∧
    dget (handle_violation admins st chat_id msg_id uid analysis ctype true true true).1.user_warnings
        uid = none ∧
    dget (handle_violation admins st chat_id msg_id uid analysis ctype true true true).1.user_violations
        uid = none ∧
    (calculate_trust_score
        (handle_violation admins st chat_id msg_id uid analysis ctype true true true).1
        uid now).1 =
      max 0 (min 100 (50 + min 20 ((now - j) / (24 * 60 * 60) * 2))) := by
  have hdh : dhas st.user_warnings uid = true := dhas_of_dget _ _ _ hw
  have hv_eq : handle_violation admins st chat_id msg_id uid analysis ctype true true true =
      ({ st with
          user_warnings := derase (dset st.user_warnings uid (2 + 1)) uid,
          user_violations :=
            derase (dset st.user_violations uid
              (((dget st.user_violations uid).getD []) ++
                [⟨ctype, analysis.violations, 2 + 1⟩])) uid },
        Action.deleteMsg chat_id msg_id :: admins.map Action.adminNotify ++
          [Action.banUser chat_id uid, Action.groupNotice chat_id "final_ban_report"]) := by
    unfold handle_violation
    rw [if_neg (by simp)]
    dsimp only
    rw [if_pos hdh, hw]
    dsimp only [Option.getD_some]
    rw [if_pos (by omega : 3 ≤ 2 + 1), if_pos rfl, if_pos rfl]
  rw [hv_eq]
  refine ⟨?_, ?_, ?_, ?_⟩
  · simp [List.countP_cons, List.countP_append, countP_isBan_adminNotify, Action.isBan]
  · simp [dget_derase]
  · simp [dget_derase]
  · unfold calculate_trust_score
    rw [if_pos hts]
    dsimp only
    rw [hj]
    simp [dget_derase]

/-- C2 (witness): the amended statement applied to the concrete 3rd
violation of user 7 queried at time 0 (zero tenure, score exactly 50). -/
theorem C2_third_violation_witness :
    ((handle_violation [] exStateC2 2 50 7 ⟨false, []⟩ "image" true true true).2.countP
        (fun a => Action.isBan a) = 1) ∧
    dget (handle_violation [] exStateC2 2 50 7 ⟨false, []⟩ "image" true true true).1.user_warnings
        7 = none ∧
    dget (handle_violation [] exStateC2 2 50 7 ⟨false, []⟩ "image" true true true).1.user_violations
        7 = none ∧
    (calculate_trust_score
        (handle_violation [] exStateC2 2 50 7 ⟨false, []⟩ "image" true true true).1 7 0).1 =
      max 0 (min 100 (50 + min 20 ((0 - 0) / (24 * 60 * 60) * 2))) :=
  C2_third_violation [] exStateC2 2 50 7 ⟨false, []⟩ "image" 0 0 (by rfl) (by rfl) (by rfl)

/-! ## C3 — deletion failure and escalation

The claim that escalation proceeds when deletion fails is refuted:
`handle_violation` wraps `message.delete()` and the whole escalation in a
single `try`, so a delete failure aborts the handler before any ledger
mutation or warn/ban action. -/

/-- C3 (counterexample): with a failing delete, the handler leaves the
state untouched (user 7 keeps warning count 2) and emits no warn or ban
action — only the failed delete attempt — refuting the claim that the
violation is appended, the count incremented and the warn/ban emitted. -/
theorem C3_counterexample :
    handle_violation [] exStateC2 1 99 7 ⟨false, [RuleHit.mk "vulgar_content" "high"]⟩
        "text" false true true = (exStateC2, [Action.deleteMsg 1 99]) ∧
    dget exStateC2.user_warnings 7 = some 2 := by
  exact ⟨by decide, by decide⟩

/-- C3 (amended): deletion gates escalation.  If deleting the offending
message fails, `handle_violation` aborts: the state is unchanged and no
warn or ban action is emitted.  If deletion succeeds, escalation proceeds:
the warning count is incremented, the violation is appended, and the warn
(when the new count is below 3) or ban (otherwise) action is emitted. -/
theorem C3_deletion_gates_escalation (admins : List ℕ) (st : BotState)
    (chat_id msg_id uid : ℕ) (analysis : Verdict) (ctype : String) (banOk finalOk : Bool) :
    handle_violation admins st chat_id msg_id uid analysis ctype false banOk finalOk =
      (st, [Action.deleteMsg chat_id msg_id]) ∧
    ((dget st.user_warnings uid).getD 0 + 1 < 3 →
      dget (handle_violation admins st chat_id msg_id uid analysis ctype true banOk finalOk).1.user_warnings
          uid = some ((dget st.user_warnings uid).getD 0 + 1) ∧
      dget (handle_violation admins st chat_id msg_id uid analysis ctype true banOk finalOk).1.user_violations
          uid = some
            ((if dhas st.user_warnings uid then (dget st.user_violations uid).getD [] else []) ++
              [⟨ctype, analysis.violations, (dget st.user_warnings uid).getD 0 + 1⟩]) ∧
      Action.groupNotice chat_id "warning" ∈
        (handle_violation admins st chat_id msg_id uid analysis ctype true banOk finalOk).2) ∧
    (3 ≤ (dget st.user_warnings uid).getD 0 + 1 →
      Action.banUser chat_id uid ∈
        (handle_violation admins st chat_id msg_id uid analysis ctype true banOk finalOk).2) := by
  refine ⟨by unfold handle_violation; rw [if_pos (by simp)], ?_, ?_⟩
  · intro h3
    unfold handle_violation
    rw [if_neg (by simp)]
    dsimp only
    by_cases hdh : dhas st.user_warnings uid = true
    · rw [if_pos hdh, if_neg (by omega)]
      rw [if_pos hdh]
      refine ⟨by simp [dget_dset_self], by simp [dget_dset_self], by simp⟩
    · have hnone : dget st.user_warnings uid = none := by
        cases hopt : dget st.user_warnings uid with
        | none => rfl
        | some v => exact absurd (dhas_of_dget _ _ _ hopt) hdh
      rw [if_neg hdh]
      dsimp only
      rw [dget_dset_self, if_neg hdh]
      simp only [Option.getD_some]
      rw [hnone]
      simp only [Option.getD_none]
      rw [if_neg (by omega : ¬3 ≤ 0 + 1)]
      refine ⟨by simp [dget_dset_self], ?_, by simp⟩
      rw [dget_dset_self, dget_dset_self]
      simp
  · intro h3
    unfold handle_violation
    rw [if_neg (by simp)]
    dsimp only
    by_cases hdh : dhas st.user_warnings uid = true
    · rw [if_pos hdh, if_pos (by omega)]
      cases banOk <;> cases finalOk <;> simp
    · have hnone : dget st.user_warnings uid = none := by
        cases hopt : dget st.user_warnings uid with
        | none => rfl
        | some v => exact absurd (dhas_of_dget _ _ _ hopt) hdh
      rw [hnone] at h3
      simp only [Option.getD_none] at h3
      omega

/-- C3 (witness): the amended statement at a concrete first offense with a
successful delete — count becomes 1, the violation is recorded, and the
warning notice is emitted; and the failing-delete branch leaves the empty
state unchanged. -/
theorem C3_deletion_gates_escalation_witness :
    handle_violation [8] initialState 3 41 5 ⟨false, []⟩ "text" false true true =
      (initialState, [Action.deleteMsg 3 41]) ∧
    dget (handle_violation [8] initialState 3 41 5 ⟨false, []⟩ "text" true true true).1.user_warnings
        5 = some 1 := by
  have h := C3_deletion_gates_escalation [8] initialState 3 41 5 ⟨false, []⟩ "text" true true
  exact ⟨h.1, ((h.2.1 (by decide)).1.trans (by decide))⟩

/-! ## Retention-scheduler lemmas -/

theorem length_insertAsc (m : ℕ) (l : List ℕ) : (insertAsc m l).length = l.length + 1 := by
  induction l with
  | nil => rfl
  | cons x xs ih => by_cases h : m ≤ x <;> simp [insertAsc, h, ih]

theorem length_sortAsc (l : List ℕ) : (sortAsc l).length = l.length := by
  induction l with
  | nil => rfl
  | cons x xs ih => simp [sortAsc, length_insertAsc, ih]

theorem mem_insertAsc (a m : ℕ) (l : List ℕ) : a ∈ insertAsc m l ↔ a = m ∨ a ∈ l := by
  induction l with
  | nil => simp [insertAsc]
  | cons x xs ih =>
    by_cases h : m ≤ x
    · simp [insertAsc, h]
    · simp only [insertAsc, if_neg h, List.mem_cons, ih]
      tauto

theorem mem_sortAsc (a : ℕ) (l : List ℕ) : a ∈ sortAsc l ↔ a ∈ l := by
  induction l with
  | nil => exact Iff.rfl
  | cons x xs ih => simp [sortAsc, mem_insertAsc, ih]

theorem sweepLoop_counts (oracle : ℕ → DelResult) (c : ℕ) (l : List ℕ) :
    ∀ (hist : Dict ℤ) (d e : ℕ) (acts : List Action),
    (sweepLoop oracle c l hist d e acts).2.1 + (sweepLoop oracle c l hist d e acts).2.2.1 =
      d + e + l.length := by
  induction l with
  | nil => intro hist d e acts; simp [sweepLoop]
  | cons m rest ih =>
    intro hist d e acts
    cases ho : oracle m <;> simp only [sweepLoop, ho] <;> rw [ih] <;> simp <;> omega

theorem sweepLoop_acts (oracle : ℕ → DelResult) (c : ℕ) (l : List ℕ) :
    ∀ (hist : Dict ℤ) (d e : ℕ) (acts : List Action),
    (sweepLoop oracle c l hist d e acts).2.2.2 =
      acts ++ l.map (fun m => Action.deleteMsg c m) := by
  induction l with
  | nil => intro hist d e acts; simp [sweepLoop]
  | cons m rest ih =>
    intro hist d e acts
    cases ho : oracle m <;> simp only [sweepLoop, ho] <;> rw [ih] <;>
      simp [List.append_assoc]

theorem sweepLoop_hist (oracle : ℕ → DelResult) (c : ℕ) (l : List ℕ) :
    ∀ (hist : Dict ℤ) (d e : ℕ) (acts : List Action),
    (sweepLoop oracle c l hist d e acts).1 =
      hist.filter (fun p => !(decide (p.1 ∈ l) && removedOutcome (oracle p.1))) := by
  induction l with
  | nil => intro hist d e acts; simp [sweepLoop]
  | cons m rest ih =>
    intro hist d e acts
    cases ho : oracle m <;> simp only [sweepLoop, ho] <;> rw [ih]
    case ok =>
      unfold derase
      rw [List.filter_filter]
      apply List.filter_congr
      intro p hp
      by_cases hpm : p.1 = m <;> simp [hpm, ho, removedOutcome, List.mem_cons]
    case notFound =>
      unfold derase
      rw [List.filter_filter]
      apply List.filter_congr
      intro p hp
      by_cases hpm : p.1 = m <;> simp [hpm, ho, removedOutcome, List.mem_cons]
    case cantDelete =>
      apply List.filter_congr
      intro p hp
      by_cases hpm : p.1 = m <;> simp [hpm, ho, removedOutcome, List.mem_cons]
    case otherErr =>
      apply List.filter_congr
      intro p hp
      by_cases hpm : p.1 = m <;> simp [hpm, ho, removedOutcome, List.mem_cons]

/-- The sweep's final tracked history: entries survive unless their id was
swept (older than the cutoff after cleanup) with a removing outcome
(success or not-found).  Shared characterization used by the frame
claims. -/
theorem sweep_hist_char (st : BotState) (c : ℕ) (cutoff now : ℤ) (oracle : ℕ → DelResult) :
    (get_recent_messages_for_deletion st c cutoff now oracle).2.1.message_history =
      (cleanup_old_message_history st now).message_history.filter
        (fun p =>
          !(decide (p.1 ∈ get_messages_older_than (cleanup_old_message_history st now) cutoff) &&
            removedOutcome (oracle p.1))) := by
  unfold get_recent_messages_for_deletion
  by_cases h : (get_messages_older_than (cleanup_old_message_history st now) cutoff).isEmpty = true
  · dsimp only
    rw [if_pos h]
    rw [List.isEmpty_iff] at h
    rw [h]
    simp
  · dsimp only
    rw [if_neg h]
    dsimp only
    rw [sweepLoop_hist]
    apply List.filter_congr
    intro p hp
    simp [mem_sortAsc]

/-! ## C5 — preview vs sweep reconciliation

The claimed identity `will_delete_count = deleted_count + not-found
failures` fails whenever some failure is of another kind ("message can't
be deleted", or any other error): every swept id contributes to
`deleted_count` or to `error_count`, so the true identity adds the whole
`error_count`. -/

/-- C5 (counterexample): one tracked old message whose deletion fails with
"message can't be deleted": the preview reports 1, the sweep deletes 0 and
has 0 not-found failures — the claimed identity 1 = 0 + 0 is false. -/
theorem C5_counterexample :
    (preview_deletion exStateC5 10 1000).1.will_delete_count ≠
      (get_recent_messages_for_deletion exStateC5 9 10 1000
          (fun _ => DelResult.cantDelete)).1.deleted_count +
        notFoundFailures exStateC5 10 1000 (fun _ => DelResult.cantDelete) := by
  decide

/-- C5 (amended): for a preview and a sweep evaluated against the same
tracked-message snapshot and the same cutoff, the preview's
`will_delete_count` equals the sweep's `deleted_count` plus its whole
`error_count` (delete failures of every kind — not-found, protected, and
others). -/
theorem C5_preview_equals_sweep_total (st : BotState) (c : ℕ) (cutoff now : ℤ)
    (oracle : ℕ → DelResult) :
    (preview_deletion st cutoff now).1.will_delete_count =
      (get_recent_messages_for_deletion st c cutoff now oracle).1.deleted_count +
        (get_recent_messages_for_deletion st c cutoff now oracle).1.error_count := by
  unfold preview_deletion get_recent_messages_for_deletion
  by_cases h : (get_messages_older_than (cleanup_old_message_history st now) cutoff).isEmpty = true
  · dsimp only
    rw [if_pos h]
    rw [List.isEmpty_iff] at h
    simp [h]
  · dsimp only
    rw [if_neg h]
    dsimp only
    rw [sweepLoop_counts, length_sortAsc]
    simp

/-! ## C6 — what a sweep deletes, and its frame

The per-chat frame claim fails: the tracked history records only
`message_id → seen_at` with no chat dimension, so a sweep for any chat
processes every tracked id older than the cutoff, whatever chat it was
seen in; moreover ids older than the 48-hour ceiling are evicted by the
pre-sweep cleanup rather than deleted, and the order is ascending message
id. -/

/-- C6 (counterexample): message 8 has `seen_at < cutoff` but is evicted
by the 48-hour cleanup, not deleted (the only delete attempt is message 5,
issued in whatever chat the sweep names); and sweeping chat 1 or chat 2
changes the tracked set identically, so tracked messages "of other chats"
are not left unchanged. -/
theorem C6_counterexample :
    (get_recent_messages_for_deletion exStateC6 1 10 1000 (fun _ => DelResult.ok)).2.2 =
      [Action.deleteMsg 1 5] ∧
    (get_recent_messages_for_deletion exStateC6 1 10 1000 (fun _ => DelResult.ok)).2.1.message_history =
      (get_recent_messages_for_deletion exStateC6 2 10 1000 (fun _ => DelResult.ok)).2.1.message_history := by
  exact ⟨by decide, by decide⟩

/-- C6 (amended): a sweep first evicts tracked entries older than the
48-hour ceiling, then attempts deletion — in the chat named by the sweep
and in ascending message-id order — of exactly the surviving tracked ids
with `seen_at` earlier than the cutoff, regardless of the chat the
messages came from; an entry is removed from the tracked set exactly when
its id was swept with a removing outcome (success or not-found), and the
resulting tracked set does not depend on the sweep's chat id. -/
theorem C6_sweep_frame (st : BotState) (c c2 : ℕ) (cutoff now : ℤ)
    (oracle : ℕ → DelResult) :
    (get_recent_messages_for_deletion st c cutoff now oracle).2.2 =
      (sortAsc (get_messages_older_than (cleanup_old_message_history st now) cutoff)).map
        (fun m => Action.deleteMsg c m) ∧
    (get_recent_messages_for_deletion st c cutoff now oracle).2.1.message_history =
      (cleanup_old_message_history st now).message_history.filter
        (fun p =>
          !(decide (p.1 ∈ get_messages_older_than (cleanup_old_message_history st now) cutoff) &&
            removedOutcome (oracle p.1))) ∧
    (get_recent_messages_for_deletion st c cutoff now oracle).2.1.message_history =
      (get_recent_messages_for_deletion st c2 cutoff now oracle).2.1.message_history := by
  refine ⟨?_, sweep_hist_char st c cutoff now oracle, ?_⟩
  · unfold get_recent_messages_for_deletion
    by_cases h : (get_messages_older_than (cleanup_old_message_history st now) cutoff).isEmpty = true
    · dsimp only
      rw [if_pos h]
      rw [List.isEmpty_iff] at h
      rw [h]
      rfl
    · dsimp only
      rw [if_neg h]
      dsimp only
      rw [sweepLoop_acts]
      simp
  · rw [sweep_hist_char st c cutoff now oracle, sweep_hist_char st c2 cutoff now oracle]

/-! ## C7 — one auto-deletion task per (chat, window) pair -/

theorem memB_eq_mem (m : ℕ) (l : List ℕ) : memB m l = decide (m ∈ l) := by
  induction l with
  | nil => simp [memB]
  | cons x xs ih =>
    by_cases h : x = m
    · simp [memB, h, List.mem_cons]
    · have h2 : ¬m = x := fun hh => h hh.symm
      simp [memB, h, h2, ih, List.mem_cons]

/-- C7: (1) an `/auto` start for an already-active (chat, window) pair is
rejected with no state change; (2) a start for an inactive in-range pair
succeeds, activates exactly that pair, and leaves every other pair's
activation unchanged; (3) stopping one window of a chat leaves the chat's
other windows active — the tasks are tracked and cancellable
independently. -/
theorem C7_auto_task_uniqueness :
    (∀ st : BotState, ∀ c m : ℕ,
      pairActive st c m = true →
      handle_auto_deletion st c m true = (st, AutoResp.duplicate) ∨
      handle_auto_deletion st c m true = (st, AutoResp.outOfRange)) ∧
    (∀ st : BotState, ∀ c m : ℕ,
      10 ≤ m → m ≤ 1440 → pairActive st c m = false →
      (handle_auto_deletion st c m true).2 = AutoResp.started ∧
      pairActive (handle_auto_deletion st c m true).1 c m = true ∧
      (∀ c2 m2 : ℕ, (c2 ≠ c ∨ m2 ≠ m) →
        pairActive (handle_auto_deletion st c m true).1 c2 m2 = pairActive st c2 m2)) ∧
    (∀ st : BotState, ∀ c m m2 : ℕ, m ≠ m2 →
      pairActive (stop_auto_deletion_one st c m).1 c m2 = pairActive st c m2) := by
  refine ⟨?_, ?_, ?_⟩
  · intro st c m hact
    unfold handle_auto_deletion
    rw [if_neg (by simp)]
    by_cases hr : ¬(10 ≤ m ∧ m ≤ 1440)
    · right; rw [if_pos hr]
    · left; rw [if_neg hr, if_pos hact]
  · intro st c m h10 h1440 hact
    unfold handle_auto_deletion
    rw [if_neg (by simp), if_neg (by omega), if_neg (by simp [hact])]
    refine ⟨rfl, ?_, ?_⟩
    · unfold pairActive start_auto_deletion
      dsimp only
      rw [dget_dset_self]
      simp [memB_eq_mem]
    · intro c2 m2 hne
      unfold pairActive start_auto_deletion
      dsimp only
      by_cases hc : c = c2
      · rw [hc, dget_dset_self]
        have hm2 : m2 ≠ m := by
          rcases hne with h | h
          · exact absurd hc.symm h
          · exact h
        simp only [Option.getD_some]
        rw [memB_eq_mem, memB_eq_mem]
        simp [List.mem_append, List.mem_singleton, hm2]
      · rw [dget_dset_ne _ _ _ _ hc]
  · intro st c m m2 hne
    unfold stop_auto_deletion_one
    by_cases hg : (!dhas st.auto_deletion_tasks c ||
        !memB m ((dget st.auto_deletion_tasks c).getD [])) = true
    · rw [if_pos hg]
    · rw [if_neg hg]
      dsimp only
      by_cases hemp :
          (((dget st.auto_deletion_tasks c).getD []).filter
            (fun x => decide (x ≠ m))).isEmpty = true
      · rw [if_pos hemp]
        unfold pairActive
        dsimp only
        rw [dget_derase]
        rw [if_pos rfl]
        rw [List.isEmpty_iff, List.filter_eq_nil_iff] at hemp
        simp only [Option.getD_none]
        rw [memB_eq_mem, memB_eq_mem]
        have hnotin : m2 ∉ (dget st.auto_deletion_tasks c).getD [] := by
          intro hm
          have h2 := hemp m2 hm
          simp at h2
          exact hne h2.symm
        simp [hnotin]
      · rw [if_neg hemp]
        unfold pairActive
        dsimp only
        rw [dget_dset_self]
        simp only [Option.getD_some]
        rw [memB_eq_mem, memB_eq_mem]
        have : m2 ∈ ((dget st.auto_deletion_tasks c).getD []).filter
            (fun x => decide (x ≠ m)) ↔ m2 ∈ (dget st.auto_deletion_tasks c).getD [] := by
          rw [List.mem_filter]
          constructor
          · exact fun h => h.1
          · exact fun h => ⟨h, by simpa using Ne.symm hne⟩
        simp only [this]

/-- C7 (witness): with the task (chat 4, window 60) active, `/auto60` for
chat 4 is rejected without change; `/auto120` succeeds, both windows are
then tracked, and stopping window 120 leaves window 60 active. -/
theorem C7_auto_task_uniqueness_witness :
    (handle_auto_deletion exStateC7 4 60 true = (exStateC7, AutoResp.duplicate) ∨
      handle_auto_deletion exStateC7 4 60 true = (exStateC7, AutoResp.outOfRange)) ∧
    (handle_auto_deletion exStateC7 4 120 true).2 = AutoResp.started ∧
    pairActive (handle_auto_deletion exStateC7 4 120 true).1 4 120 = true ∧
    pairActive (handle_auto_deletion exStateC7 4 120 true).1 4 60 = true ∧
    pairActive (stop_auto_deletion_one (handle_auto_deletion exStateC7 4 120 true).1 4 120).1
        4 60 = true := by
  have h1 := C7_auto_task_uniqueness.1 exStateC7 4 60 (by decide)
  have h2 := C7_auto_task_uniqueness.2.1 exStateC7 4 120 (by decide) (by decide) (by decide)
  have h3 := C7_auto_task_uniqueness.2.2 (handle_auto_deletion exStateC7 4 120 true).1
    4 120 60 (by decide)
  refine ⟨h1, h2.1, h2.2.1, ?_, ?_⟩
  · rw [h2.2.2 4 60 (Or.inr (by decide))]; decide
  · rw [h3, h2.2.2 4 60 (Or.inr (by decide))]; decide

/-! ## C8 — the >180-minute two-step confirmation gate

The "never deletes on first issue" and "confirm triggers the sweep" parts
hold; the "replies requiring the matching confirmation command" part fails
for windows above 1440: those get the range-error reply (still with no
deletion). -/

/-- C8 (counterexample): an admin's `/2000` (2000 > 180) is answered with
the out-of-range reply, not the reply requiring `/confirm2000` — refuting
the claim that every >180-minute command is answered with the confirmation
requirement. -/
theorem C8_counterexample :
    (handle_timer_deletion initialState 1 2000 true 0 (fun _ => DelResult.ok)).2.1 =
      TimerResp.outOfRange ∧
    (handle_timer_deletion initialState 1 2000 true 0 (fun _ => DelResult.ok)).2.1 ≠
      TimerResp.needConfirm 2000 := by
  exact ⟨by decide, by decide⟩

/-- C8 (amended): a `/minutes` command with minutes > 180 never performs
any deletion when first issued (state unchanged, no delete attempts); when
minutes also lies within the [5, 1440] bound the reply requires the
matching confirmation command, while minutes > 1440 gets the range-error
reply; and `/confirm minutes` with an in-range window runs the sweep with
`cutoff = now − minutes·60`. -/
theorem C8_confirmation_gate :
    (∀ st : BotState, ∀ c m : ℕ, ∀ now : ℤ, ∀ oracle : ℕ → DelResult, 180 < m →
      (handle_timer_deletion st c m true now oracle).1 = st ∧
      (handle_timer_deletion st c m true now oracle).2.2 = []) ∧
    (∀ st : BotState, ∀ c m : ℕ, ∀ now : ℤ, ∀ oracle : ℕ → DelResult,
      180 < m → m ≤ 1440 →
      (handle_timer_deletion st c m true now oracle).2.1 = TimerResp.needConfirm m) ∧
    (∀ st : BotState, ∀ c m : ℕ, ∀ now : ℤ, ∀ oracle : ℕ → DelResult, 1440 < m →
      (handle_timer_deletion st c m true now oracle).2.1 = TimerResp.outOfRange) ∧
    (∀ st : BotState, ∀ c m : ℕ, ∀ now : ℤ, ∀ oracle : ℕ → DelResult,
      5 ≤ m → m ≤ 1440 →
      handle_confirm_deletion st c m true now oracle =
        ((get_recent_messages_for_deletion st c (now - m * 60) now oracle).2.1,
          TimerResp.swept (get_recent_messages_for_deletion st c (now - m * 60) now oracle).1,
          (get_recent_messages_for_deletion st c (now - m * 60) now oracle).2.2)) := by
  refine ⟨?_, ?_, ?_, ?_⟩
  · intro st c m now oracle h180
    unfold handle_timer_deletion
    rw [if_neg (by simp)]
    by_cases hr : ¬(5 ≤ m ∧ m ≤ 1440)
    · rw [if_pos hr]; exact ⟨rfl, rfl⟩
    · rw [if_neg hr, if_pos h180]; exact ⟨rfl, rfl⟩
  · intro st c m now oracle h180 h1440
    unfold handle_timer_deletion
    rw [if_neg (by simp), if_neg (by omega), if_pos h180]
  · intro st c m now oracle h1440
    unfold handle_timer_deletion
    rw [if_neg (by simp), if_pos (by omega)]
  · intro st c m now oracle h5 h1440
    unfold handle_confirm_deletion
    rw [if_neg (by simp), if_neg (by omega)]

/-- C8 (witness): `/200` on a state tracking one old message deletes
nothing and asks for `/confirm200`; `/confirm200` then runs the sweep. -/
theorem C8_confirmation_gate_witness :
    (handle_timer_deletion exStateC5 1 200 true 100000 (fun _ => DelResult.ok)).1 =
      exStateC5 ∧
    (handle_timer_deletion exStateC5 1 200 true 100000 (fun _ => DelResult.ok)).2.2 = [] ∧
    (handle_timer_deletion exStateC5 1 200 true 100000 (fun _ => DelResult.ok)).2.1 =
      TimerResp.needConfirm 200 ∧
    handle_confirm_deletion exStateC5 1 200 true 100000 (fun _ => DelResult.ok) =
      ((get_recent_messages_for_deletion exStateC5 1 (100000 - 200 * 60) 100000
          (fun _ => DelResult.ok)).2.1,
        TimerResp.swept (get_recent_messages_for_deletion exStateC5 1 (100000 - 200 * 60) 100000
          (fun _ => DelResult.ok)).1,
        (get_recent_messages_for_deletion exStateC5 1 (100000 - 200 * 60) 100000
          (fun _ => DelResult.ok)).2.2) := by
  have h1 := C8_confirmation_gate.1 exStateC5 1 200 100000 (fun _ => DelResult.ok) (by decide)
  have h2 := C8_confirmation_gate.2.1 exStateC5 1 200 100000 (fun _ => DelResult.ok)
    (by decide) (by decide)
  have h4 := C8_confirmation_gate.2.2.2 exStateC5 1 200 100000 (fun _ => DelResult.ok)
    (by decide) (by decide)
  exact ⟨h1.1, h1.2, h2, h4⟩

/-! ## C9 — captionless images: educational, strict matching only -/

theorem any_congr_local {α : Type} (l : List α) (f g : α → Bool)
    (h : ∀ a ∈ l, f a = g a) : l.any f = l.any g := by
  induction l with
  | nil => rfl
  | cons x xs ih =>
    simp only [List.any_cons, h x (by simp), ih (fun a ha => h a (by simp [ha]))]

theorem matchTemplateAt_eq_true (oracle : ℕ → ℚ → ℚ) (idx : ℕ) (img tpl : ImgDims)
    (scales : List ℚ) (threshold : ℚ) :
    matchTemplateAt oracle idx img tpl scales threshold = true ↔
      (tpl.height ≤ img.height ∧ tpl.width ≤ img.width) ∧
      ∃ s ∈ scales, scaledFits img tpl s = true ∧ threshold ≤ oracle idx s := by
  unfold matchTemplateAt
  by_cases hc : (img.height < tpl.height || img.width < tpl.width) = true
  · rw [if_pos hc]
    simp only [Bool.or_eq_true, decide_eq_true_eq] at hc
    constructor
    · intro hh; exact absurd hh (by simp)
    · rintro ⟨⟨h1, h2⟩, -⟩
      rcases hc with h | h <;> omega
  · rw [if_neg hc]
    simp only [Bool.or_eq_true, decide_eq_true_eq, not_or, Nat.not_lt] at hc
    rw [List.any_eq_true]
    constructor
    · rintro ⟨s, hs, hpred⟩
      simp only [Bool.and_eq_true, decide_eq_true_eq] at hpred
      exact ⟨hc, s, hs, hpred.1, hpred.2⟩
    · rintro ⟨-, s, hs, hfit, hth⟩
      exact ⟨s, hs, by simp [hfit, hth]⟩

theorem detect_strict_eq_true (oracle : ℕ → ℚ → ℚ) (img : ImgDims)
    (templates : List ImgDims) :
    detect_competitor_logos_strict oracle img templates = true ↔
      ∃ p ∈ templates.enum,
        (p.2.height ≤ img.height ∧ p.2.width ≤ img.width) ∧
        ∃ s ∈ strictScales, scaledFits img p.2 s = true ∧ (9 : ℚ)/10 ≤ oracle p.1 s := by
  unfold detect_competitor_logos_strict
  rw [List.any_eq_true]
  constructor
  · rintro ⟨p, hp, hx⟩
    exact ⟨p, hp, (matchTemplateAt_eq_true oracle p.1 img p.2 strictScales ((9 : ℚ)/10)).mp hx⟩
  · rintro ⟨p, hp, hx⟩
    exact ⟨p, hp, (matchTemplateAt_eq_true oracle p.1 img p.2 strictScales ((9 : ℚ)/10)).mpr hx⟩

theorem detect_strict_congr (o1 o2 : ℕ → ℚ → ℚ) (img : ImgDims)
    (templates : List ImgDims)
    (h : ∀ i : ℕ, ∀ s : ℚ, s ∈ strictScales → o2 i s = o1 i s) :
    detect_competitor_logos_strict o2 img templates =
      detect_competitor_logos_strict o1 img templates := by
  unfold detect_competitor_logos_strict
  apply any_congr_local
  intro p hp
  unfold matchTemplateAt
  by_cases hc : (img.height < p.2.height || img.width < p.2.width) = true
  · rw [if_pos hc, if_pos hc]
  · rw [if_neg hc, if_neg hc]
    apply any_congr_local
    intro s hs
    rw [h p.1 s hs]

/-- C9: an image with an empty (or whitespace-only) caption, successfully
decoded, is treated as educational; it is flagged unsafe exactly when some
logo template — whose unscaled dimensions fit the image — reaches the
strict normalized-cross-correlation threshold 0.9 at one of the strict
scales 0.8–1.2 that fits; and the verdict depends only on the correlation
values at the strict scales, so the lenient wide-scale (0.3–1.2,
threshold 0.8) matching is never consulted for such an image. -/
theorem C9_empty_caption_strict_only (oracle : ℕ → ℚ → ℚ) (templates : List ImgDims)
    (img : ImgDims) (caption : String) (h : strip_empty caption = true) :
    (analyze_image oracle templates true img caption).is_educational = true ∧
    ((analyze_image oracle templates true img caption).is_safe = false ↔
      ∃ p ∈ templates.enum,
        (p.2.height ≤ img.height ∧ p.2.width ≤ img.width) ∧
        ∃ s ∈ strictScales, scaledFits img p.2 s = true ∧ (9 : ℚ)/10 ≤ oracle p.1 s) ∧
    (∀ oracle2 : ℕ → ℚ → ℚ,
      (∀ i : ℕ, ∀ s : ℚ, s ∈ strictScales → oracle2 i s = oracle i s) →
      analyze_image oracle2 templates true img caption =
        analyze_image oracle templates true img caption) := by
  have hsimp : ∀ o : ℕ → ℚ → ℚ, analyze_image o templates true img caption =
      ⟨!detect_competitor_logos_strict o img templates,
        detect_competitor_logos_strict o img templates, true, false⟩ := by
    intro o
    unfold analyze_image
    rw [if_neg (by simp)]
    dsimp only
    rw [h]
    rw [if_pos rfl, if_pos rfl]
  refine ⟨by rw [hsimp], ?_, ?_⟩
  · rw [hsimp]
    have hb : ∀ b : Bool, ((!b) = false ↔ b = true) := by intro b; cases b <;> simp
    dsimp only
    rw [hb]
    exact detect_strict_eq_true oracle img templates
  · intro oracle2 hagree
    rw [hsimp, hsimp, detect_strict_congr oracle oracle2 img templates hagree]

/-- C9 (witness): a concrete captionless decodable image against one
template and a zero-correlation oracle is educational. -/
theorem C9_empty_caption_strict_only_witness :
    (analyze_image (fun _ _ => 0) [ImgDims.mk 10 10] true (ImgDims.mk 100 100) "").is_educational =
      true :=
  (C9_empty_caption_strict_only (fun _ _ => 0) [ImgDims.mk 10 10] (ImgDims.mk 100 100) ""
    (by rfl)).1

